import Mathlib

/-!
Shallow embedding of the Movie-Watchlist Flask application
(`movie_library/tmdb.py`, `movie_library/routes.py`, `movie_library/__init__.py`).

External effects (the TMDB HTTP API, the MongoDB store, the Flask session)
are made explicit: HTTP responses become an environment record `TMDBNet`,
the store becomes a `DB` record of lists, the session a `Session` record,
and Python exceptions become `Except`/explicit `Response.fault` values.
-/

namespace MovieLibrary

/-! ## Model of relevant Python builtins -/

/-- Parse a list of decimal digit characters; `none` if empty or a
non-digit occurs.  Helper for `pyIntOfString`. -/
def digitsToNat (cs : List Char) : Option Nat :=
  if cs = [] then none
  else
    cs.foldl
      (fun acc c =>
        match acc with
        | none => none
        | some n => if c.isDigit then some (10 * n + (c.toNat - 48)) else none)
      (some 0)

/-- Model of Python's `str.strip()` as applied by `int(...)`:
whitespace removed from both ends. -/
def pyStrip (s : String) : String :=
  ⟨((s.data.dropWhile Char.isWhitespace).reverse.dropWhile Char.isWhitespace).reverse⟩

/-- Model of Python's `int(s)` on a string: surrounding whitespace is
stripped, an optional sign is allowed, then decimal digits; `none`
models the `ValueError` raised on any other input. -/
def pyIntOfString (s : String) : Option Int :=
  match (pyStrip s).data with
  | '+' :: rest => (digitsToNat rest).map Int.ofNat
  | '-' :: rest => (digitsToNat rest).map (fun n => -(n : Int))
  | cs => (digitsToNat cs).map Int.ofNat

/-- Model of Python's `str.lower()` on the ASCII strings involved. -/
def pyLowerChar (c : Char) : Char :=
  if 'A' ≤ c ∧ c ≤ 'Z' then Char.ofNat (c.toNat + 32) else c

/-- `s.lower()`. -/
def pyLower (s : String) : String :=
  ⟨s.data.map pyLowerChar⟩

/-- Split a character list at every `'-'` (rightmost-first recursion;
the groups come out in order). -/
def splitDashAux : List Char → List (List Char)
  | [] => [[]]
  | c :: rest =>
    let r := splitDashAux rest
    if c = '-' then [] :: r
    else
      match r with
      | [] => [[c]]
      | g :: gs => (c :: g) :: gs

/-- Model of Python's `s.split("-")`: always a nonempty list of
groups; `"".split("-") == [""]`. -/
def pySplitDash (s : String) : List String :=
  (splitDashAux s.data).map (fun cs => ⟨cs⟩)

/-- Python truthiness of an optional string (`None` and `""` are falsy):
models `if session.get("email"):`-style tests. -/
def pyTruthyOptStr : Option String → Bool
  | none => false
  | some s => s ≠ ""

/-! ## TMDB data model (`tmdb.py`) -/

/-- `TMDB_IMAGE_BASE_URL` from `tmdb.py`. -/
def TMDB_IMAGE_BASE_URL : String := "https://image.tmdb.org/t/p"

/-- Dataclass `TMDBMovie` from `tmdb.py` (floats modelled as `Rat`). -/
structure TMDBMovie where
  id : Int
  title : String
  overview : String := ""
  poster_path : Option String := none
  backdrop_path : Option String := none
  release_date : String := ""
  vote_average : Rat := 0
  vote_count : Int := 0
  genre_ids : List Int := []
  genres : List String := []
  runtime : Int := 0
  tagline : String := ""
deriving Repr, DecidableEq

/-- `TMDBMovie.poster_url`. -/
def TMDBMovie.poster_url (m : TMDBMovie) : Option String :=
  match m.poster_path with
  | some p => if p ≠ "" then some (TMDB_IMAGE_BASE_URL ++ "/w500" ++ p) else none
  | none => none

/-- `TMDBMovie.year`, with the body of the `try` block made explicit:
`.error` is the `ValueError` that `int(...)` raises on a malformed
leading component. -/
def yearTryBody (rd : String) : Except String Int :=
  match pyIntOfString ((pySplitDash rd).headD "") with
  | some n => Except.ok n
  | none => Except.error "ValueError"

/-- `TMDBMovie.year`: `if self.release_date: try: return
int(self.release_date.split("-")[0]) except (ValueError, IndexError):
return 0` / `return 0`.  The result is `Except` so that "never raises"
is an explicit statement: the handler turns the `ValueError` into
`ok 0`. -/
def TMDBMovie.year (m : TMDBMovie) : Except String Int :=
  if m.release_date ≠ "" then
    match yearTryBody m.release_date with
    | Except.ok n => Except.ok n
    | Except.error _ => Except.ok 0
  else Except.ok 0

/-- The integer value of `TMDBMovie.year` (total, since the property
catches its only exception). -/
def TMDBMovie.yearVal (m : TMDBMovie) : Int :=
  match m.year with
  | Except.ok n => n
  | Except.error _ => 0

/-- Dataclass `TMDBCastMember` from `tmdb.py`. -/
structure TMDBCastMember where
  id : Int
  name : String
  character : String := ""
  profile_path : Option String := none
deriving Repr, DecidableEq

/-- Dataclass `TMDBVideo` from `tmdb.py`. -/
structure TMDBVideo where
  id : String
  key : String
  name : String
  site : String
  type : String
deriving Repr, DecidableEq

/-- `TMDBVideo.youtube_url`: `some` of the embed URL iff the hosting
site (lower-cased) is `"youtube"`. -/
def TMDBVideo.youtube_url (v : TMDBVideo) : Option String :=
  if pyLower v.site = "youtube" then
    some ("https://www.youtube.com/embed/" ++ v.key)
  else none

/-- Python truthiness of `video.youtube_url` (`None` falsy, `""` falsy). -/
def youtubeTruthy (v : TMDBVideo) : Bool :=
  pyTruthyOptStr v.youtube_url

/-! ## The video sort (`get_movie_videos`)

`videos.sort(key=lambda v: (v.type != "Trailer", v.type != "Teaser"))`:
CPython's `list.sort` is a stable sort on the key, and the lexicographic
order on the boolean pair is the numeric order on `2*b₁ + b₂`.  Any
stable sort computes the same list; the embedding uses an insertion sort
(which inserts each element before the later elements of equal key,
i.e. is stable). -/

/-- The Python sort key `(v.type != "Trailer", v.type != "Teaser")`
encoded as a natural number respecting the lexicographic order:
Trailer ↦ 1, Teaser ↦ 2, everything else ↦ 3 (0 would need a type that
is simultaneously `"Trailer"` and `"Teaser"`). -/
def videoSortKey (v : TMDBVideo) : Nat :=
  2 * (if v.type = "Trailer" then 0 else 1) + (if v.type = "Teaser" then 0 else 1)

/-- Stable insertion step: place `v` before the first element of
not-smaller key. -/
def sortInsertVideo (v : TMDBVideo) : List TMDBVideo → List TMDBVideo
  | [] => [v]
  | w :: ws =>
    if videoSortKey v ≤ videoSortKey w then v :: w :: ws
    else w :: sortInsertVideo v ws

/-- The stable sort performed at the end of `get_movie_videos`. -/
def sortVideos : List TMDBVideo → List TMDBVideo
  | [] => []
  | v :: vs => sortInsertVideo v (sortVideos vs)

/-! ## The TMDB client (`tmdb.py`)

HTTP is made explicit as an environment `TMDBNet`: each endpoint's
outcome is either its parsed payload or `.error ()` for a
`requests.RequestException` (network failure, timeout, or a
`raise_for_status` HTTP error).  Exceptions that escape a Python
function become `Except.error` results. -/

/-- One entry of the `"crew"` array of the credits endpoint. -/
structure CrewMember where
  job : String
  name : String
deriving Repr, DecidableEq

/-- One raw JSON item of a `"results"` array, as read by the discover /
now-playing consumers (`movie["id"]`, `movie["title"]`,
`movie.get(...)`). -/
structure RawMovieJson where
  id : Int
  title : String
  poster_path : Option String := none
  release_date : Option String := none
  vote_average : Option Rat := none
deriving Repr, DecidableEq

/-- The HTTP environment: the `TMDB_API_KEY` environment variable and
one response per endpoint used by the code. -/
structure TMDBNet where
  apiKey : Option String := none
  searchResp : Except Unit (List TMDBMovie × Int × Int × Int) := Except.error ()
  detailsResp : Except Unit TMDBMovie := Except.error ()
  creditsResp : Except Unit (List TMDBCastMember) := Except.error ()
  videosResp : Except Unit (List TMDBVideo) := Except.error ()
  crewResp : Except Unit (List CrewMember) := Except.error ()
  discoverResp : Except Unit (List RawMovieJson) := Except.error ()
  nowPlayingResp : Except Unit (List RawMovieJson) := Except.error ()

/-- `get_api_key`: raises `ValueError` when the environment variable is
unset or empty (`if not api_key`). -/
def get_api_key (net : TMDBNet) : Except String String :=
  if pyTruthyOptStr net.apiKey then Except.ok (net.apiKey.getD "")
  else Except.error "ValueError"

/-- Result dictionary of `search_movies`. -/
structure SearchResult where
  movies : List TMDBMovie
  page : Int := 1
  total_pages : Int := 1
  total_results : Int := 0
deriving Repr, DecidableEq

/-- `search_movies`: on a `RequestException` returns the empty result
dictionary `{"movies": [], "page": 1, "total_pages": 1,
"total_results": 0}`. -/
def search_movies (net : TMDBNet) : Except String SearchResult :=
  match get_api_key net with
  | Except.error e => Except.error e
  | Except.ok _ =>
    match net.searchResp with
    | Except.ok (ms, p, tp, tr) =>
      Except.ok { movies := ms, page := p, total_pages := tp, total_results := tr }
    | Except.error _ => Except.ok { movies := [], page := 1, total_pages := 1, total_results := 0 }

/-- `get_movie_details`: `some` movie on success, `none` on a
`RequestException` (including HTTP 404 via `raise_for_status`). -/
def get_movie_details (net : TMDBNet) : Except String (Option TMDBMovie) :=
  match get_api_key net with
  | Except.error e => Except.error e
  | Except.ok _ =>
    match net.detailsResp with
    | Except.ok m => Except.ok (some m)
    | Except.error _ => Except.ok none

/-- `get_movie_credits`: first 10 entries of the `"cast"` array
(`data.get("cast", [])[:10]`); `[]` on a `RequestException`. -/
def get_movie_credits (net : TMDBNet) : Except String (List TMDBCastMember) :=
  match get_api_key net with
  | Except.error e => Except.error e
  | Except.ok _ =>
    match net.creditsResp with
    | Except.ok cast => Except.ok (cast.take 10)
    | Except.error _ => Except.ok []

/-- `get_movie_videos`: the parsed `"results"` array, sorted with
`videos.sort(key=lambda v: (v.type != "Trailer", v.type != "Teaser"))`;
`[]` on a `RequestException`. -/
def get_movie_videos (net : TMDBNet) : Except String (List TMDBVideo) :=
  match get_api_key net with
  | Except.error e => Except.error e
  | Except.ok _ =>
    match net.videosResp with
    | Except.ok vs => Except.ok (sortVideos vs)
    | Except.error _ => Except.ok []

/-- `get_director`: the name of the first crew entry whose `job` equals
`"Director"`; `""` if none or on a `RequestException`. -/
def get_director (net : TMDBNet) : Except String String :=
  match get_api_key net with
  | Except.error e => Except.error e
  | Except.ok _ =>
    match net.crewResp with
    | Except.ok crew =>
      match crew.find? (fun c => c.job = "Director") with
      | some c => Except.ok c.name
      | none => Except.ok ""
    | Except.error _ => Except.ok ""

/-- `get_featured_indian_movies`: first `limit` raw results of the
discover endpoint; `[]` on any exception of the request (the handler is
a broad `except Exception`; `get_api_key` runs before the `try`). -/
def get_featured_indian_movies (net : TMDBNet) (limit : Nat := 12) :
    Except String (List RawMovieJson) :=
  match get_api_key net with
  | Except.error e => Except.error e
  | Except.ok _ =>
    match net.discoverResp with
    | Except.ok movies => Except.ok (movies.take limit)
    | Except.error _ => Except.ok []

/-- Call counters for the aggregator: how many credits calls and videos
calls `get_full_movie_info` issued. -/
structure CallCounts where
  credits : Nat := 0
  videos : Nat := 0
deriving Repr, DecidableEq

/-- The aggregate dictionary returned by `get_full_movie_info`. -/
structure FullMovieInfo where
  movie : TMDBMovie
  cast : List TMDBCastMember
  videos : List TMDBVideo
  trailer : Option TMDBVideo
deriving Repr, DecidableEq

/-- `get_full_movie_info`: short-circuits to `None` when
`get_movie_details` is falsy, otherwise fetches credits and videos and
selects the first video with a truthy `youtube_url` as the trailer.
The `CallCounts` component records the credits/videos calls issued. -/
def get_full_movie_info (net : TMDBNet) :
    Except String (Option FullMovieInfo × CallCounts) :=
  match get_movie_details net with
  | Except.error e => Except.error e
  | Except.ok none => Except.ok (none, {})
  | Except.ok (some movie) =>
    match get_movie_credits net with
    | Except.error e => Except.error e
    | Except.ok cast =>
      match get_movie_videos net with
      | Except.error e => Except.error e
      | Except.ok videos =>
        let trailer := videos.find? youtubeTruthy
        Except.ok (some { movie := movie, cast := cast, videos := videos, trailer := trailer },
                   { credits := 1, videos := 1 })

/-- The distinct external-catalog call sites of the code. -/
inductive CatalogCall
  | search | details | credits | videos | director | featuredIndian | nowPlaying
deriving Repr, DecidableEq

/-- The `timeout=` argument passed to `requests.get` at each call site,
read off the source: `search_movies`, `get_movie_details`,
`get_movie_credits`, `get_movie_videos`, `get_director` all pass
`timeout=10`; `get_featured_indian_movies` (tmdb.py:356) and
`fetch_featured_movies` (routes.py:43) pass no timeout at all. -/
def callTimeoutSeconds : CatalogCall → Option Nat
  | CatalogCall.search => some 10
  | CatalogCall.details => some 10
  | CatalogCall.credits => some 10
  | CatalogCall.videos => some 10
  | CatalogCall.director => some 10
  | CatalogCall.featuredIndian => none
  | CatalogCall.nowPlaying => none

/-- One entry of the list built by `fetch_featured_movies`. -/
structure FeaturedEntry where
  id : Int
  title : String
  poster_path : Option String
  release_date : String
  vote_average : Rat
  director : String
deriving Repr, DecidableEq

/-- `fetch_featured_movies` (routes.py): the now-playing request has no
`try`/`except`, so a `RequestException` escapes the function
(`Except.error`), unlike every client in `tmdb.py`. -/
def fetch_featured_movies (net : TMDBNet) : Except String (List FeaturedEntry) := do
  let _ ← get_api_key net
  match net.nowPlayingResp with
  | Except.error _ => Except.error "RequestException"
  | Except.ok results =>
    (results.take 8).mapM (fun m => do
      let dir ← get_director net
      pure { id := m.id, title := m.title, poster_path := m.poster_path,
             release_date := m.release_date.getD "N/A",
             vote_average := m.vote_average.getD 0,
             director := dir })

/-! ## Store, session and routes (`routes.py`) -/

/-- Modelled from the spec: the `Movie` dataclass of
`movie_library/models.py`, which is not among the sources (only its
callers in `routes.py` are) — opaque string id, title, director (free
text), release year, optional cast/series/tag lists, optional
description, optional external video reference, optional numeric
rating, optional last-watched timestamp, with the documented defaults.
`video_link` is an `Option` because Python's dynamic typing lets a
route store `None` there; `last_watched` timestamps are abstracted to
`Nat`. -/
structure Movie where
  _id : String
  title : String := ""
  director : String := ""
  year : Int := 0
  cast : List String := []
  series : List String := []
  tags : List String := []
  description : String := ""
  video_link : Option String := some ""
  rating : Int := 0
  last_watched : Option Nat := none
deriving Repr, DecidableEq

/-- Modelled from the spec: the `User` dataclass of
`movie_library/models.py` (not among the sources) — opaque string id,
unique email, stored password hash, profile fields defaulting to the
empty string, watchlist as a list of movie ids defaulting to empty. -/
structure User where
  _id : String
  email : String
  password : String
  name : String := ""
  bio : String := ""
  avatar_url : String := ""
  movies : List String := []
deriving Repr, DecidableEq

/-- The MongoDB database: the `movie` and `user` collections. -/
structure DB where
  movie : List Movie := []
  user : List User := []
deriving Repr, DecidableEq

/-- `find_one` on the movie collection by `_id` (first match). -/
def findOneMovie (db : DB) (id : String) : Option Movie :=
  db.movie.find? (fun m => m._id = id)

/-- `find_one` on the user collection by `email` (first match). -/
def findOneUserByEmail (db : DB) (e : String) : Option User :=
  db.user.find? (fun u => u.email = e)

/-- `update_one`: apply `f` to the first element matching `p`, leave
everything else (including a no-match collection) unchanged. -/
def updateFirst {α : Type} (p : α → Bool) (f : α → α) : List α → List α
  | [] => []
  | x :: xs => if p x then f x :: xs else x :: updateFirst p f xs

/-- `db.movie.update_one({"_id": id}, {"$set": ...})`. -/
def updateMovieSet (db : DB) (id : String) (f : Movie → Movie) : DB :=
  { db with movie := updateFirst (fun m => m._id = id) f db.movie }

/-- `db.user.update_one({"_id": uid}, {"$push": {"movies": mid}})`:
`$push` appends to the end of the array. -/
def pushUserMovie (db : DB) (uid mid : String) : DB :=
  let upd : User → User := fun u => { u with movies := u.movies ++ [mid] }
  { db with user := updateFirst (fun u => u._id = uid) upd db.user }

/-- `insert_one` on the movie collection. -/
def insertMovie (db : DB) (m : Movie) : DB :=
  { db with movie := db.movie ++ [m] }

/-- `insert_one` on the user collection. -/
def insertUser (db : DB) (u : User) : DB :=
  { db with user := db.user ++ [u] }

/-- The Flask session keys the application uses: the auth binding
(`user_id`, `email`) and the sticky display-theme preference. -/
structure Session where
  user_id : Option String := none
  email : Option String := none
  theme : Option String := none
deriving Repr, DecidableEq

/-- What a route hands back to Flask: a rendered template, a redirect,
or an uncaught exception (named by its Python type) that terminates
the request pipeline abnormally. -/
inductive Response
  | render : String → Response
  | redirect : String → Response
  | fault : String → Response
deriving Repr, DecidableEq

/-- A route outcome: the flashed messages plus the response. -/
structure RouteOut where
  flashes : List String := []
  resp : Response
deriving Repr, DecidableEq

/-- The endpoints registered on the `pages` blueprint (the view
function names in `routes.py`). -/
def blueprintEndpoints : List String :=
  ["home", "index", "register", "login", "logout", "add_movie", "edit_movie",
   "movie", "rate_movie", "watch_today", "toggle_theme", "profile", "search",
   "tmdb_movie", "add_from_tmdb", "add_featured"]

/-- `url_for(".name")`: raises `werkzeug.routing.BuildError` when the
endpoint does not exist on the blueprint. -/
def url_for (endpoint : String) : Except String String :=
  if endpoint ∈ blueprintEndpoints then Except.ok endpoint
  else Except.error "BuildError"

/-- `redirect(url_for(".name"))`, with the `BuildError` surfacing as a
fault. -/
def redirectTo (endpoint : String) : Response :=
  match url_for endpoint with
  | Except.ok u => Response.redirect u
  | Except.error e => Response.fault e

/-- Route `GET /movie/<id>` (public): `Movie(**find_one(...))` — when
`find_one` yields `None`, unpacking `**None` raises `TypeError`. -/
def movieRoute (db : DB) (id : String) : RouteOut :=
  match findOneMovie db id with
  | some _ => { resp := Response.render "movie_details.html" }
  | none => { resp := Response.fault "TypeError" }

/-- Route `GET /movie/<id>/rate?rating=N` (`@login_required`; the
decorator tests `session.get("email") is None`).  `int(request.args
.get("rating"))` raises `TypeError` on a missing argument and
`ValueError` on a non-numeric one; otherwise `update_one` sets the
rating (a no-op when the id is absent) and the route redirects. -/
def rate_movie (db : DB) (sess : Session) (id : String) (ratingArg : Option String) :
    RouteOut × DB :=
  match sess.email with
  | none => ({ resp := redirectTo "login" }, db)
  | some _ =>
    match ratingArg with
    | none => ({ resp := Response.fault "TypeError" }, db)
    | some s =>
      match pyIntOfString s with
      | none => ({ resp := Response.fault "ValueError" }, db)
      | some r =>
        ({ resp := redirectTo "movie" },
         updateMovieSet db id (fun m => { m with rating := r }))

/-- Route `GET /movie/<id>/watch` (`@login_required`): `update_one`
sets `last_watched` to now (a no-op when the id is absent), then
redirects. -/
def watch_today (db : DB) (sess : Session) (id : String) (now : Nat) :
    RouteOut × DB :=
  match sess.email with
  | none => ({ resp := redirectTo "login" }, db)
  | some _ =>
    ({ resp := redirectTo "movie" },
     updateMovieSet db id (fun m => { m with last_watched := some now }))

/-- Route `GET /toggle-theme?current_page=`: `"dark"` becomes
`"light"`, anything else (including an unset theme) becomes `"dark"`;
then redirect to the `current_page` argument (werkzeug rejects a
`None` location). -/
def toggle_theme (sess : Session) (current_page : Option String) :
    RouteOut × Session :=
  let sess' := { sess with
    theme := some (if sess.theme = some "dark" then "light" else "dark") }
  (⟨[], match current_page with
        | some p => Response.redirect p
        | none => Response.fault "TypeError"⟩, sess')

/-- Route `GET /logout`: remember the theme, `session.clear()`,
restore the theme, redirect to the login page. -/
def logout (sess : Session) : RouteOut × Session :=
  ({ resp := redirectTo "login" },
   { user_id := none, email := none, theme := sess.theme })

/-- Route `GET+POST /register`.  `form` is `some (email, password)`
when `validate_on_submit()` passes, `none` otherwise; `hash` models
`pbkdf2_sha256.hash` (an external primitive).  There is no
duplicate-email check anywhere in the route: a validated submission
always inserts a new `User`. -/
def registerRoute (db : DB) (sess : Session) (form : Option (String × String))
    (freshId : String) (hash : String → String) : RouteOut × DB × Session :=
  if pyTruthyOptStr sess.email then ({ resp := redirectTo "home" }, db, sess)
  else
    match form with
    | some (email, password) =>
      ({ flashes := ["User registered successfully"], resp := redirectTo "login" },
       insertUser db { _id := freshId, email := email, password := hash password },
       sess)
    | none => ({ resp := Response.render "register.html" }, db, sess)

/-- Route `GET+POST /login`.  `verify` models
`pbkdf2_sha256.verify(submitted, stored)`.  An unknown email flashes
and redirects; a failed verification flashes and re-renders; only a
successful verification binds `user_id` and `email` into the
session. -/
def loginRoute (db : DB) (sess : Session) (form : Option (String × String))
    (verify : String → String → Bool) : RouteOut × Session :=
  if pyTruthyOptStr sess.email then ({ resp := redirectTo "home" }, sess)
  else
    match form with
    | none => ({ resp := Response.render "login.html" }, sess)
    | some (email, password) =>
      match findOneUserByEmail db email with
      | none =>
        ({ flashes := ["Login credins=tials not correct"], resp := redirectTo "login" },
         sess)
      | some user =>
        if verify password user.password then
          ({ resp := redirectTo "home" },
           { sess with user_id := some user._id, email := some user.email })
        else
          ({ flashes := ["Login credins=tials not correct"],
             resp := Response.render "login.html" }, sess)

/-- The `video_link` computed in `add_from_tmdb`: `video_link = ""`,
then `if movie_info["trailer"] and movie_info["trailer"].youtube_url:
video_link = movie_info["trailer"].youtube_url`. -/
def importVideoLink (trailer : Option TMDBVideo) : String :=
  match trailer with
  | some t => if youtubeTruthy t then t.youtube_url.getD "" else ""
  | none => ""

/-- The `trailer_url` computed in `add_featured`:
`trailer.youtube_url if trailer else ""` — `None` when the trailer is
present but not hosted on YouTube. -/
def featuredTrailerUrl (trailer : Option TMDBVideo) : Option String :=
  match trailer with
  | some t => t.youtube_url
  | none => some ""

/-- Route `POST /add_from_tmdb/<id>` (`@login_required`): imports the
aggregate into an owned `Movie` (cast flattened to names, tags the
genre list, description the overview, video link the trailer's URL
when truthy else `""`), inserts it, pushes its id onto the session
user's watchlist, and redirects to the movie page. -/
def add_from_tmdb (net : TMDBNet) (db : DB) (sess : Session) (freshId : String) :
    RouteOut × DB :=
  match sess.email with
  | none => ({ resp := redirectTo "login" }, db)
  | some _ =>
    match get_full_movie_info net with
    | Except.error e => ({ resp := Response.fault e }, db)
    | Except.ok (none, _) =>
      ({ flashes := ["Movie not found"], resp := redirectTo "search" }, db)
    | Except.ok (some info, _) =>
      match get_director net with
      | Except.error e => ({ resp := Response.fault e }, db)
      | Except.ok director =>
        let video_link : String := importVideoLink info.trailer
        let movie : Movie :=
          { _id := freshId, title := info.movie.title, director := director,
            year := info.movie.yearVal, cast := info.cast.map (fun c => c.name),
            tags := info.movie.genres, description := info.movie.overview,
            video_link := some video_link }
        let db1 := insertMovie db movie
        match sess.user_id with
        | none => ({ resp := Response.fault "KeyError" }, db1)
        | some uid =>
          ({ flashes := ["'" ++ movie.title ++ "' added to your watchlist!"],
             resp := redirectTo "movie" },
           pushUserMovie db1 uid freshId)

/-- Route `GET /add_featured/<id>` (`@login_required`): same import as
`add_from_tmdb` except the video link is `trailer.youtube_url if
trailer else ""` (so a trailer whose `youtube_url` were `None` would
be stored as `None`), and the final redirect targets the nonexistent
endpoint `watchlist`, which makes `url_for` raise `BuildError` after
the inserts have happened. -/
def add_featured (net : TMDBNet) (db : DB) (sess : Session) (freshId : String) :
    RouteOut × DB :=
  match sess.email with
  | none => ({ resp := redirectTo "login" }, db)
  | some _ =>
    match get_full_movie_info net with
    | Except.error e => ({ resp := Response.fault e }, db)
    | Except.ok (none, _) =>
      ({ flashes := ["Could not load movie details."], resp := redirectTo "home" }, db)
    | Except.ok (some info, _) =>
      match get_director net with
      | Except.error e => ({ resp := Response.fault e }, db)
      | Except.ok director =>
        let trailer_url : Option String := featuredTrailerUrl info.trailer
        let movie : Movie :=
          { _id := freshId, title := info.movie.title, director := director,
            year := info.movie.yearVal, cast := info.cast.map (fun a => a.name),
            tags := info.movie.genres, description := info.movie.overview,
            video_link := trailer_url }
        let db1 := insertMovie db movie
        match sess.user_id with
        | none => ({ resp := Response.fault "KeyError" }, db1)
        | some uid =>
          ({ flashes := [movie.title ++ " added to your watchlist!"],
             resp := redirectTo "watchlist" },
           pushUserMovie db1 uid freshId)

/-! ## Lemmas about the video sort -/

theorem videoSortKey_of_trailer (v : TMDBVideo) (h : v.type = "Trailer") :
    videoSortKey v = 1 := by
  simp [videoSortKey, h]

theorem videoSortKey_of_teaser (v : TMDBVideo) (h : v.type = "Teaser") :
    videoSortKey v = 2 := by
  simp [videoSortKey, h]

theorem two_le_videoSortKey_of_not_trailer (v : TMDBVideo) (h : v.type ≠ "Trailer") :
    2 ≤ videoSortKey v := by
  simp only [videoSortKey, if_neg h]
  omega

theorem videoSortKey_of_other (v : TMDBVideo) (h1 : v.type ≠ "Trailer")
    (h2 : v.type ≠ "Teaser") : videoSortKey v = 3 := by
  simp [videoSortKey, h1, h2]

theorem videoSortKey_congr (v w : TMDBVideo) (h : v.type = w.type) :
    videoSortKey v = videoSortKey w := by
  simp [videoSortKey, h]

theorem mem_sortInsertVideo (v x : TMDBVideo) (l : List TMDBVideo) :
    x ∈ sortInsertVideo v l ↔ x = v ∨ x ∈ l := by
  induction l with
  | nil => simp [sortInsertVideo]
  | cons w ws ih =>
    simp only [sortInsertVideo]
    split
    · simp only [List.mem_cons]
    · simp only [List.mem_cons, ih]
      tauto

theorem pairwise_sortInsertVideo (v : TMDBVideo) (l : List TMDBVideo)
    (h : l.Pairwise (fun a b => videoSortKey a ≤ videoSortKey b)) :
    (sortInsertVideo v l).Pairwise (fun a b => videoSortKey a ≤ videoSortKey b) := by
  induction l with
  | nil => simp [sortInsertVideo]
  | cons w ws ih =>
    rcases List.pairwise_cons.1 h with ⟨hw, hws⟩
    simp only [sortInsertVideo]
    split
    case isTrue hle =>
      refine List.pairwise_cons.2 ⟨?_, h⟩
      intro b hb
      rcases List.mem_cons.1 hb with rfl | hb'
      · exact hle
      · exact le_trans hle (hw b hb')
    case isFalse hgt =>
      refine List.pairwise_cons.2 ⟨?_, ih hws⟩
      intro b hb
      rcases (mem_sortInsertVideo v b ws).1 hb with rfl | hb'
      · exact le_of_not_le hgt
      · exact hw b hb'

theorem pairwise_sortVideos (l : List TMDBVideo) :
    (sortVideos l).Pairwise (fun a b => videoSortKey a ≤ videoSortKey b) := by
  induction l with
  | nil => simp [sortVideos]
  | cons v vs ih => exact pairwise_sortInsertVideo v _ ih

theorem filter_sortInsertVideo_neg (p : TMDBVideo → Bool) (v : TMDBVideo)
    (l : List TMDBVideo) (hp : p v = false) :
    (sortInsertVideo v l).filter p = l.filter p := by
  induction l with
  | nil => simp [sortInsertVideo, hp]
  | cons w ws ih =>
    simp only [sortInsertVideo]
    split
    · simp [List.filter_cons, hp]
    · simp [List.filter_cons, ih]

theorem filter_sortInsertVideo_pos (p : TMDBVideo → Bool) (v : TMDBVideo)
    (l : List TMDBVideo) (hp : p v = true)
    (hkey : ∀ w, p w = true → videoSortKey w = videoSortKey v) :
    (sortInsertVideo v l).filter p = v :: l.filter p := by
  induction l with
  | nil => simp [sortInsertVideo, hp]
  | cons w ws ih =>
    simp only [sortInsertVideo]
    split
    case isTrue h => simp [List.filter_cons, hp]
    case isFalse h =>
      have hw : p w = false := by
        cases hpw : p w with
        | true => exact absurd (le_of_eq (hkey w hpw).symm) h
        | false => rfl
      simp [List.filter_cons, hw, ih]

theorem filter_sortVideos (p : TMDBVideo → Bool) (l : List TMDBVideo)
    (hkey : ∀ w w', p w = true → p w' = true → videoSortKey w = videoSortKey w') :
    (sortVideos l).filter p = l.filter p := by
  induction l with
  | nil => rfl
  | cons v vs ih =>
    simp only [sortVideos]
    cases hp : p v with
    | false =>
      rw [filter_sortInsertVideo_neg p v _ hp, ih]
      simp [List.filter_cons, hp]
    | true =>
      rw [filter_sortInsertVideo_pos p v _ hp (fun w hw => hkey w v hw hp), ih]
      simp [List.filter_cons, hp]

/-- **C3**: after the sort performed by `get_movie_videos`, every entry
of type `"Trailer"` precedes every entry not of type `"Trailer"`,
entries of type `"Teaser"` precede all remaining non-Trailer entries,
and the relative order of entries with equal type is preserved (the
sort is stable on the two-level priority key). -/
theorem C3_getVideos_sort_trailers_first_stable (l : List TMDBVideo) :
    ((sortVideos l).Pairwise (fun a b => b.type = "Trailer" → a.type = "Trailer")) ∧
    ((sortVideos l).Pairwise
      (fun a b => b.type = "Teaser" → (a.type = "Trailer" ∨ a.type = "Teaser"))) ∧
    (∀ t : String,
      (sortVideos l).filter (fun v => v.type == t) = l.filter (fun v => v.type == t)) := by
  have hs := pairwise_sortVideos l
  refine ⟨?_, ?_, ?_⟩
  · refine hs.imp ?_
    intro a b hab hb
    by_contra ha
    have h2 := two_le_videoSortKey_of_not_trailer a ha
    have h1 := videoSortKey_of_trailer b hb
    omega
  · refine hs.imp ?_
    intro a b hab hb
    by_contra ha
    push_neg at ha
    have h3 := videoSortKey_of_other a ha.1 ha.2
    have h2 := videoSortKey_of_teaser b hb
    omega
  · intro t
    refine filter_sortVideos _ _ ?_
    intro w w' hw hw'
    exact videoSortKey_congr w w' (by
      have h1 : w.type = t := by simpa using hw
      have h2 : w'.type = t := by simpa using hw'
      rw [h1, h2])

/-! ## Year extraction (C5) -/

/-- **C5**: for every release-date string, including malformed and
empty ones, the year extraction of a Catalog Movie returns an integer
— the parsed leading year when the component before the first `"-"`
parses as an int, and `0` for malformed or empty input — and never
raises (`Except.ok` on every input; the `ValueError` of `int(...)` is
caught by the handler). -/
theorem C5_year_never_raises (m : TMDBMovie) :
    m.year = Except.ok
      (if m.release_date = "" then 0
       else (pyIntOfString ((pySplitDash m.release_date).headD "")).getD 0) := by
  unfold TMDBMovie.year yearTryBody
  by_cases h : m.release_date = ""
  · rw [if_neg (fun hc => hc h), if_pos h]
  · rw [if_pos h, if_neg h]
    cases hp : pyIntOfString ((pySplitDash m.release_date).headD "") with
    | none => rfl
    | some n => rfl

/-! ## Aggregator lemmas (C4, C10) -/

theorem api_key_ok_of_details (net : TMDBNet) (x : Option TMDBMovie)
    (h : get_movie_details net = Except.ok x) :
    ∃ k, get_api_key net = Except.ok k := by
  unfold get_movie_details at h
  cases hk : get_api_key net with
  | error e => rw [hk] at h; simp at h
  | ok k => exact ⟨k, rfl⟩

theorem get_movie_credits_ok (net : TMDBNet) (k : String)
    (hk : get_api_key net = Except.ok k) :
    ∃ c, get_movie_credits net = Except.ok c := by
  unfold get_movie_credits
  rw [hk]
  cases net.creditsResp with
  | ok c => exact ⟨c.take 10, rfl⟩
  | error e => exact ⟨[], rfl⟩

theorem get_movie_videos_ok (net : TMDBNet) (k : String)
    (hk : get_api_key net = Except.ok k) :
    ∃ vs, get_movie_videos net = Except.ok vs := by
  unfold get_movie_videos
  rw [hk]
  cases net.videosResp with
  | ok vs => exact ⟨sortVideos vs, rfl⟩
  | error e => exact ⟨[], rfl⟩

/-- **C4**: if `get_movie_details` is absent, `get_full_movie_info` is
absent with zero credits calls and zero videos calls (short-circuit);
otherwise it returns the details together with the credits and the
videos for the same id (one call each), the trailer being the first
video with a truthy YouTube URL. -/
theorem C4_getFullInfo_absent_for_absent (net : TMDBNet) :
    (get_movie_details net = Except.ok none →
      get_full_movie_info net = Except.ok (none, { credits := 0, videos := 0 })) ∧
    (∀ m : TMDBMovie, get_movie_details net = Except.ok (some m) →
      ∃ info : FullMovieInfo,
        get_full_movie_info net = Except.ok (some info, { credits := 1, videos := 1 }) ∧
        info.movie = m ∧
        get_movie_credits net = Except.ok info.cast ∧
        get_movie_videos net = Except.ok info.videos ∧
        info.trailer = info.videos.find? youtubeTruthy) := by
  constructor
  · intro h
    unfold get_full_movie_info
    rw [h]
  · intro m h
    obtain ⟨k, hk⟩ := api_key_ok_of_details net _ h
    obtain ⟨c, hc⟩ := get_movie_credits_ok net k hk
    obtain ⟨vs, hv⟩ := get_movie_videos_ok net k hk
    refine ⟨⟨m, c, vs, vs.find? youtubeTruthy⟩, ?_, rfl, hc, hv, rfl⟩
    unfold get_full_movie_info
    rw [h, hc, hv]

/-- Concrete environment for the absent case: valid key, the details
request fails. -/
def netAbsentEx : TMDBNet := { apiKey := some "key" }

/-- Witness for C4: at `netAbsentEx`, details are absent and the
aggregate short-circuits with zero credits/videos calls. -/
theorem C4_witness :
    get_movie_details netAbsentEx = Except.ok none ∧
    get_full_movie_info netAbsentEx = Except.ok (none, { credits := 0, videos := 0 }) :=
  ⟨by rfl, (C4_getFullInfo_absent_for_absent netAbsentEx).1 (by rfl)⟩

theorem youtube_url_isSome_iff (v : TMDBVideo) :
    v.youtube_url.isSome ↔ pyLower v.site = "youtube" := by
  unfold TMDBVideo.youtube_url
  split
  · simp_all
  · simp_all

theorem trailer_field_of_full_info (net : TMDBNet) (info : FullMovieInfo)
    (cnt : CallCounts)
    (h : get_full_movie_info net = Except.ok (some info, cnt)) :
    info.trailer = info.videos.find? youtubeTruthy := by
  unfold get_full_movie_info at h
  cases hd : get_movie_details net with
  | error e => rw [hd] at h; simp at h
  | ok od =>
    cases od with
    | none => rw [hd] at h; simp at h
    | some m =>
      rw [hd] at h
      cases hc : get_movie_credits net with
      | error e => rw [hc] at h; simp at h
      | ok c =>
        rw [hc] at h
        cases hv : get_movie_videos net with
        | error e => rw [hv] at h; simp at h
        | ok vs =>
          rw [hv] at h
          simp only [Except.ok.injEq, Prod.mk.injEq, Option.some.injEq] at h
          rw [← h.1]

/-- **C10**: whenever `get_full_movie_info` returns a present aggregate
whose trailer is present, the trailer's hosting site is YouTube and its
playback URL is present, so the `trailer_url` that `add_featured`
computes from a present trailer is never `None`. -/
theorem C10_present_trailer_has_url (net : TMDBNet) (info : FullMovieInfo)
    (cnt : CallCounts) (t : TMDBVideo)
    (h : get_full_movie_info net = Except.ok (some info, cnt))
    (ht : info.trailer = some t) :
    pyLower t.site = "youtube" ∧ t.youtube_url.isSome ∧
    (featuredTrailerUrl info.trailer).isSome := by
  have htr := trailer_field_of_full_info net info cnt h
  rw [htr] at ht
  have hp : youtubeTruthy t = true := List.find?_some ht
  have hsome : t.youtube_url.isSome := by
    unfold youtubeTruthy pyTruthyOptStr at hp
    cases hu : t.youtube_url with
    | none => rw [hu] at hp; simp at hp
    | some s => simp
  refine ⟨(youtube_url_isSome_iff t).1 hsome, hsome, ?_⟩
  rw [← htr] at ht
  rw [ht]
  simpa [featuredTrailerUrl] using hsome

/-- Concrete YouTube trailer and environment for the C10 witness. -/
def vidEx : TMDBVideo :=
  { id := "v1", key := "abc", name := "Official Trailer", site := "YouTube",
    type := "Trailer" }

def tmdbMovieEx : TMDBMovie :=
  { id := 27205, title := "Inception", overview := "A mind-bending heist.",
    release_date := "2010-07-16", genres := ["Action", "Science Fiction"] }

def netVidEx : TMDBNet :=
  { apiKey := some "key", detailsResp := Except.ok tmdbMovieEx,
    creditsResp := Except.ok [], videosResp := Except.ok [vidEx],
    crewResp := Except.ok [{ job := "Director", name := "Christopher Nolan" }] }

def fullInfoEx : FullMovieInfo :=
  { movie := tmdbMovieEx, cast := [], videos := [vidEx], trailer := some vidEx }

/-- Witness for C10 at a concrete environment carrying one YouTube
trailer. -/
theorem C10_witness :
    pyLower vidEx.site = "youtube" ∧ vidEx.youtube_url.isSome ∧
    (featuredTrailerUrl fullInfoEx.trailer).isSome :=
  C10_present_trailer_has_url netVidEx fullInfoEx { credits := 1, videos := 1 } vidEx
    (by rfl) (by rfl)

/-! ## Session/auth claims (C7, C8, C9) -/

/-- The anonymous session: no auth binding, no theme. -/
def sessAnon : Session := {}

/-- An authenticated session. -/
def sessAuthEx : Session := { user_id := some "u1", email := some "a@b.com" }

/-- A stored user for the login/register examples. -/
def userEx : User := { _id := "u1", email := "a@b.com", password := "stored-hash" }

/-- A database holding `userEx`. -/
def dbUserEx : DB := { user := [userEx] }

/-- **C7**: a login attempt with an email matching no User, or with a
password whose hash verification fails, flashes the
invalid-credentials message and returns the session unchanged — no
user identity or email is bound. -/
theorem C7_login_failure_session_unchanged (db : DB) (sess : Session)
    (email password : String) (verify : String → String → Bool)
    (hanon : pyTruthyOptStr sess.email = false) :
    (findOneUserByEmail db email = none →
      loginRoute db sess (some (email, password)) verify =
        ({ flashes := ["Login credins=tials not correct"],
           resp := redirectTo "login" }, sess)) ∧
    (∀ u : User, findOneUserByEmail db email = some u →
      verify password u.password = false →
      loginRoute db sess (some (email, password)) verify =
        ({ flashes := ["Login credins=tials not correct"],
           resp := Response.render "login.html" }, sess)) := by
  constructor
  · intro h
    simp [loginRoute, hanon, h]
  · intro u hu hv
    simp [loginRoute, hanon, hu, hv]

/-- Witness for C7: wrong password against `userEx`, and an unknown
email, both leave the anonymous session untouched. -/
theorem C7_witness :
    (loginRoute dbUserEx sessAnon (some ("a@b.com", "wrong")) (fun _ _ => false) =
      ({ flashes := ["Login credins=tials not correct"],
         resp := Response.render "login.html" }, sessAnon)) ∧
    (loginRoute dbUserEx sessAnon (some ("nobody@b.com", "pw")) (fun _ _ => false) =
      ({ flashes := ["Login credins=tials not correct"],
         resp := redirectTo "login" }, sessAnon)) :=
  ⟨(C7_login_failure_session_unchanged dbUserEx sessAnon "a@b.com" "wrong"
      (fun _ _ => false) (by rfl)).2 userEx (by rfl) (by rfl),
   (C7_login_failure_session_unchanged dbUserEx sessAnon "nobody@b.com" "pw"
      (fun _ _ => false) (by rfl)).1 (by rfl)⟩

/-- **C8 (counterexample)**: on a fresh session, whose theme is unset,
two toggles end at `"light"`, not at the original (unset) value — the
claim fails for sessions without a set theme. -/
theorem C8_counterexample :
    (toggle_theme (toggle_theme sessAnon (some "/")).2 (some "/")).2.theme ≠
      sessAnon.theme := by
  decide

/-- **C8 (amended)**: for every session whose theme is already `"dark"`
or `"light"`, two toggles return the theme to its original value, and
a logout performed afterward preserves the last-set theme while
clearing the auth keys of the session. -/
theorem C8_toggle_twice_logout (sess : Session) (p1 p2 : Option String)
    (h : sess.theme = some "dark" ∨ sess.theme = some "light") :
    (toggle_theme (toggle_theme sess p1).2 p2).2.theme = sess.theme ∧
    (logout (toggle_theme (toggle_theme sess p1).2 p2).2).2 =
      { user_id := none, email := none, theme := sess.theme } := by
  rcases h with h | h <;> simp [toggle_theme, logout, h]

/-- Witness for C8 at a session with the dark theme set. -/
theorem C8_witness :
    (toggle_theme (toggle_theme { theme := some "dark" } none).2 none).2.theme =
      some "dark" ∧
    (logout (toggle_theme (toggle_theme { theme := some "dark" } none).2 none).2).2 =
      { user_id := none, email := none, theme := some "dark" } :=
  C8_toggle_twice_logout { theme := some "dark" } none none (Or.inl rfl)

/-- **C9 (counterexample)**: registering an email that already owns a
User record does not fail with DuplicateEmail — the route flashes
success, redirects to login, and the store ends up with two Users
carrying the same email. -/
theorem C9_counterexample :
    (registerRoute dbUserEx sessAnon (some ("a@b.com", "pw2")) "u2"
        (fun p => "h:" ++ p)).1 =
      { flashes := ["User registered successfully"], resp := redirectTo "login" } ∧
    ((registerRoute dbUserEx sessAnon (some ("a@b.com", "pw2")) "u2"
        (fun p => "h:" ++ p)).2.1.user.filter (fun u => u.email == "a@b.com")).length
      = 2 := by
  decide

/-- **C9 (amended)**: `register` performs no duplicate-email check of
its own (uniqueness is left to the store layer, which this code never
configures): every validated submission from an anonymous session
inserts a new User whose stored password is the one-way hash of the
submitted password, flashes success, redirects to login, and leaves
the session unchanged (no auto-login). -/
theorem C9_register_inserts_hashed_no_autologin (db : DB) (sess : Session)
    (email pw fid : String) (hash : String → String)
    (hanon : pyTruthyOptStr sess.email = false) :
    registerRoute db sess (some (email, pw)) fid hash =
      ({ flashes := ["User registered successfully"], resp := redirectTo "login" },
       insertUser db { _id := fid, email := email, password := hash pw },
       sess) := by
  simp [registerRoute, hanon]

/-- Witness for C9 with the concrete duplicate-email submission. -/
theorem C9_witness :
    registerRoute dbUserEx sessAnon (some ("a@b.com", "pw2")) "u2"
        (fun p => "h:" ++ p) =
      ({ flashes := ["User registered successfully"], resp := redirectTo "login" },
       insertUser dbUserEx { _id := "u2", email := "a@b.com", password := "h:pw2" },
       sessAnon) :=
  C9_register_inserts_hashed_no_autologin dbUserEx sessAnon "a@b.com" "pw2" "u2"
    (fun p => "h:" ++ p) (by rfl)

/-! ## Route-level not-found behavior (C1) -/

/-- The empty database. -/
def dbEmpty : DB := {}

/-- **C1 (counterexample)**: requesting the public movie-details route
for an id absent from the store does not render a not-found state or
redirect — `Movie(**None)` raises an uncaught `TypeError`, terminating
the request pipeline abnormally. -/
theorem C1_counterexample :
    movieRoute dbEmpty "missing" = { resp := Response.fault "TypeError" } := by
  rfl

/-- **C1 (amended)**: when the requested record is absent, the rate
route and the watch route redirect, and the featured-add route flashes
and redirects home; but the public movie-details route raises an
uncaught `TypeError` on an absent Movie id, so the
no-abnormal-termination guarantee does not hold for the core. -/
theorem C1_absent_record_routes (db : DB) (sess : Session)
    (e id s fid : String) (r : Int) (now : Nat) (net : TMDBNet) (cnt : CallCounts)
    (hse : sess.email = some e) :
    (pyIntOfString s = some r →
      (rate_movie db sess id (some s)).1.resp = Response.redirect "movie") ∧
    ((watch_today db sess id now).1.resp = Response.redirect "movie") ∧
    (get_full_movie_info net = Except.ok (none, cnt) →
      (add_featured net db sess fid).1.resp = Response.redirect "home") ∧
    (findOneMovie db id = none →
      movieRoute db id = { resp := Response.fault "TypeError" }) := by
  refine ⟨?_, ?_, ?_, ?_⟩
  · intro hr
    simp [rate_movie, hse, hr, redirectTo, url_for, blueprintEndpoints]
  · simp [watch_today, hse, redirectTo, url_for, blueprintEndpoints]
  · intro hinfo
    simp [add_featured, hse, hinfo, redirectTo, url_for, blueprintEndpoints]
  · intro habs
    simp [movieRoute, habs]

/-- Witness for the amended C1 at concrete inputs (absent ids,
failing catalog). -/
theorem C1_witness :
    (rate_movie dbEmpty sessAuthEx "m1" (some "5")).1.resp = Response.redirect "movie" ∧
    (watch_today dbEmpty sessAuthEx "m1" 0).1.resp = Response.redirect "movie" ∧
    (add_featured netAbsentEx dbEmpty sessAuthEx "f1").1.resp = Response.redirect "home" ∧
    movieRoute dbEmpty "m1" = { resp := Response.fault "TypeError" } := by
  have h := C1_absent_record_routes dbEmpty sessAuthEx "a@b.com" "m1" "5" "f1" 5 0
    netAbsentEx { credits := 0, videos := 0 } (by rfl)
  exact ⟨h.1 (by rfl), h.2.1, h.2.2.1 (by rfl), h.2.2.2 (by rfl)⟩

/-! ## External-catalog failure handling (C2) -/

/-- **C2 (counterexample)**: not every external-catalog call has a
bounded timeout, and not every failure is caught: the featured-Indian
discover call and the now-playing call pass no `timeout=` at all, and
`fetch_featured_movies` propagates the `RequestException` instead of
degrading to an empty result. -/
theorem C2_counterexample :
    callTimeoutSeconds CatalogCall.featuredIndian = none ∧
    callTimeoutSeconds CatalogCall.nowPlaying = none ∧
    fetch_featured_movies netAbsentEx = Except.error "RequestException" :=
  ⟨rfl, rfl, by rfl⟩

/-- **C2 (amended)**: the five `tmdb.py` endpoint clients (search,
details, credits, videos, director) each make a single attempt with a
bounded 10-second timeout and catch network/HTTP failures at the
client boundary, degrading to an empty or absent result; the
featured-Indian discover call also catches failures and degrades to
empty, but passes no timeout; the routes-level `fetch_featured_movies`
helper passes no timeout and propagates the failure as an uncaught
exception. -/
theorem C2_catalog_failure_handling (net : TMDBNet) (k : String)
    (hk : get_api_key net = Except.ok k) :
    (callTimeoutSeconds CatalogCall.search = some 10 ∧
     callTimeoutSeconds CatalogCall.details = some 10 ∧
     callTimeoutSeconds CatalogCall.credits = some 10 ∧
     callTimeoutSeconds CatalogCall.videos = some 10 ∧
     callTimeoutSeconds CatalogCall.director = some 10) ∧
    (net.searchResp = Except.error () →
      search_movies net =
        Except.ok { movies := [], page := 1, total_pages := 1, total_results := 0 }) ∧
    (net.detailsResp = Except.error () → get_movie_details net = Except.ok none) ∧
    (net.creditsResp = Except.error () → get_movie_credits net = Except.ok []) ∧
    (net.videosResp = Except.error () → get_movie_videos net = Except.ok []) ∧
    (net.crewResp = Except.error () → get_director net = Except.ok "") ∧
    (net.discoverResp = Except.error () →
      get_featured_indian_movies net = Except.ok []) ∧
    callTimeoutSeconds CatalogCall.featuredIndian = none ∧
    (net.nowPlayingResp = Except.error () →
      fetch_featured_movies net = Except.error "RequestException") ∧
    callTimeoutSeconds CatalogCall.nowPlaying = none := by
  refine ⟨⟨rfl, rfl, rfl, rfl, rfl⟩, ?_, ?_, ?_, ?_, ?_, ?_, rfl, ?_, rfl⟩
  · intro h; simp [search_movies, hk, h]
  · intro h; simp [get_movie_details, hk, h]
  · intro h; simp [get_movie_credits, hk, h]
  · intro h; simp [get_movie_videos, hk, h]
  · intro h; simp [get_director, hk, h]
  · intro h; simp [get_featured_indian_movies, hk, h]
  · intro h
    unfold fetch_featured_movies
    rw [hk, h]
    rfl

/-- Witness for the amended C2 at the all-failing environment. -/
theorem C2_witness :
    get_movie_details netAbsentEx = Except.ok none ∧
    get_movie_credits netAbsentEx = Except.ok [] ∧
    get_movie_videos netAbsentEx = Except.ok [] ∧
    get_director netAbsentEx = Except.ok "" ∧
    get_featured_indian_movies netAbsentEx = Except.ok [] ∧
    fetch_featured_movies netAbsentEx = Except.error "RequestException" := by
  have h := C2_catalog_failure_handling netAbsentEx "key" (by rfl)
  exact ⟨h.2.2.1 (by rfl), h.2.2.2.1 (by rfl), h.2.2.2.2.1 (by rfl),
         h.2.2.2.2.2.1 (by rfl), h.2.2.2.2.2.2.1 (by rfl),
         h.2.2.2.2.2.2.2.2.1 (by rfl)⟩

/-! ## Import round-trip (C6) -/

theorem findOneMovie_insertMovie_fresh (db : DB) (m : Movie)
    (h : findOneMovie db m._id = none) :
    findOneMovie (insertMovie db m) m._id = some m := by
  unfold findOneMovie at h ⊢
  unfold insertMovie
  rw [List.find?_append, h]
  simp [List.find?_cons]

/-- Both import routes store the new movie with `insert_one` and then
only touch the user collection; a fresh id is found back unchanged. -/
theorem route_insert_roundtrip (db : DB) (uid fid : String) (m : Movie)
    (hid : m._id = fid) (hfresh : findOneMovie db fid = none) :
    findOneMovie (pushUserMovie (insertMovie db m) uid fid) fid = some m := by
  have h := findOneMovie_insertMovie_fresh db m (by rw [hid]; exact hfresh)
  rw [hid] at h
  exact h

theorem importVideoLink_of_full_info (net : TMDBNet) (info : FullMovieInfo)
    (cnt : CallCounts)
    (hinfo : get_full_movie_info net = Except.ok (some info, cnt)) :
    (∀ t : TMDBVideo, info.trailer = some t →
      some (importVideoLink info.trailer) = t.youtube_url) ∧
    (info.trailer = none → some (importVideoLink info.trailer) = some "") := by
  constructor
  · intro t ht
    have htr := trailer_field_of_full_info net info cnt hinfo
    rw [htr] at ht
    have hp : youtubeTruthy t = true := List.find?_some ht
    rw [← htr] at ht
    rw [ht]
    cases hu : t.youtube_url with
    | none =>
      unfold youtubeTruthy pyTruthyOptStr at hp
      rw [hu] at hp
      simp at hp
    | some s => simp [importVideoLink, hp, hu]
  · intro ht
    rw [ht]
    rfl

/-- **C6** (spec-modelled `Movie` record): importing a present Catalog
Movie aggregate into an owned `Movie` — through either
`add_from_tmdb` or `add_featured` — and re-reading the stored record
by its id yields a title equal to the catalog title, director equal to
the catalog director lookup, year equal to the derived display year,
cast equal to the cast members' display names only, tags equal to the
catalog genre name list verbatim, description equal to the catalog
overview, and a video link equal to the selected trailer's playback
URL, or the empty string if no trailer was selected. -/
theorem C6_import_round_trip (net : TMDBNet) (db : DB) (sess : Session)
    (e uid fid dir : String) (info : FullMovieInfo) (cnt : CallCounts)
    (hse : sess.email = some e) (hsu : sess.user_id = some uid)
    (hinfo : get_full_movie_info net = Except.ok (some info, cnt))
    (hdir : get_director net = Except.ok dir)
    (hfresh : findOneMovie db fid = none) :
    (∃ mv : Movie,
       findOneMovie (add_from_tmdb net db sess fid).2 fid = some mv ∧
       mv.title = info.movie.title ∧ mv.director = dir ∧
       mv.year = info.movie.yearVal ∧
       mv.cast = info.cast.map (fun c => c.name) ∧
       mv.tags = info.movie.genres ∧
       mv.description = info.movie.overview ∧
       (∀ t : TMDBVideo, info.trailer = some t → mv.video_link = t.youtube_url) ∧
       (info.trailer = none → mv.video_link = some "")) ∧
    (∃ mv : Movie,
       findOneMovie (add_featured net db sess fid).2 fid = some mv ∧
       mv.title = info.movie.title ∧ mv.director = dir ∧
       mv.year = info.movie.yearVal ∧
       mv.cast = info.cast.map (fun a => a.name) ∧
       mv.tags = info.movie.genres ∧
       mv.description = info.movie.overview ∧
       (∀ t : TMDBVideo, info.trailer = some t → mv.video_link = t.youtube_url) ∧
       (info.trailer = none → mv.video_link = some "")) := by
  obtain ⟨hvlA, hvlN⟩ := importVideoLink_of_full_info net info cnt hinfo
  constructor
  · refine ⟨{ _id := fid, title := info.movie.title, director := dir,
              year := info.movie.yearVal,
              cast := info.cast.map (fun c => c.name),
              tags := info.movie.genres, description := info.movie.overview,
              video_link := some (importVideoLink info.trailer) },
            ?_, rfl, rfl, rfl, rfl, rfl, rfl, ?_, ?_⟩
    · unfold add_from_tmdb
      rw [hse, hinfo, hdir, hsu]
      exact route_insert_roundtrip db uid fid _ rfl hfresh
    · intro t ht
      exact hvlA t ht
    · intro ht
      exact hvlN ht
  · refine ⟨{ _id := fid, title := info.movie.title, director := dir,
              year := info.movie.yearVal,
              cast := info.cast.map (fun a => a.name),
              tags := info.movie.genres, description := info.movie.overview,
              video_link := featuredTrailerUrl info.trailer },
            ?_, rfl, rfl, rfl, rfl, rfl, rfl, ?_, ?_⟩
    · unfold add_featured
      rw [hse, hinfo, hdir, hsu]
      exact route_insert_roundtrip db uid fid _ rfl hfresh
    · intro t ht
      rw [ht]
      rfl
    · intro ht
      rw [ht]
      rfl

/-- Witness for C6: the concrete environment `netVidEx` (one YouTube
trailer, director Christopher Nolan) imported into the empty store. -/
theorem C6_witness :
    (∃ mv : Movie,
       findOneMovie (add_from_tmdb netVidEx dbEmpty sessAuthEx "m1").2 "m1" = some mv ∧
       mv.title = fullInfoEx.movie.title ∧ mv.director = "Christopher Nolan" ∧
       mv.year = fullInfoEx.movie.yearVal ∧
       mv.cast = fullInfoEx.cast.map (fun c => c.name) ∧
       mv.tags = fullInfoEx.movie.genres ∧
       mv.description = fullInfoEx.movie.overview ∧
       (∀ t : TMDBVideo, fullInfoEx.trailer = some t → mv.video_link = t.youtube_url) ∧
       (fullInfoEx.trailer = none → mv.video_link = some "")) ∧
    (∃ mv : Movie,
       findOneMovie (add_featured netVidEx dbEmpty sessAuthEx "m1").2 "m1" = some mv ∧
       mv.title = fullInfoEx.movie.title ∧ mv.director = "Christopher Nolan" ∧
       mv.year = fullInfoEx.movie.yearVal ∧
       mv.cast = fullInfoEx.cast.map (fun a => a.name) ∧
       mv.tags = fullInfoEx.movie.genres ∧
       mv.description = fullInfoEx.movie.overview ∧
       (∀ t : TMDBVideo, fullInfoEx.trailer = some t → mv.video_link = t.youtube_url) ∧
       (fullInfoEx.trailer = none → mv.video_link = some "")) :=
  C6_import_round_trip netVidEx dbEmpty sessAuthEx "a@b.com" "u1" "m1"
    "Christopher Nolan" fullInfoEx { credits := 1, videos := 1 }
    (by rfl) (by rfl) (by rfl) (by rfl) (by rfl)

end MovieLibrary
